import Mathlib

/-!
Shallow embedding of the `gracefulshutdown` Go package (handler.go).

The package waits for a termination signal, then sequentially closes a list of
`Closeable` resources, logging every step through a caller-supplied `Logger`.
Its observable behaviour per orchestration call is a finite sequence of events
(logger invocations and `Close()` invocations) plus either a returned one-shot
channel (`Handle`) or a process exit code (`HandleAndTerminate`).  We embed one
orchestration call as a pure function from the delivered signal and the list of
close outcomes to that event trace and result.
-/

namespace GracefulShutdown

/-- The termination signals registered by `do` in handler.go via
`signal.Notify(osSignals, syscall.SIGTERM, syscall.SIGQUIT, syscall.SIGQUIT, syscall.SIGINT)`. -/
inductive Sig
  | SIGTERM
  | SIGQUIT
  | SIGINT
  deriving DecidableEq, Repr

/-- How Go's `fmt.Sprintf("%v", osSignal)` renders each signal: `%v` calls
`syscall.Signal.String()`, which yields these platform-standard names. -/
def sigName : Sig → String
  | Sig.SIGTERM => "terminated"
  | Sig.SIGQUIT => "quit"
  | Sig.SIGINT => "interrupt"

/-- A `Closeable` is observed by the orchestrator only through the outcome of its
single `Close()` call: `none` models a nil error, `some e` a non-nil error whose
`Error()` string is `e`. -/
abbrev Closeable := Option String

/-- The three levels of the `Logger` interface in handler.go. -/
inductive Level
  | info
  | warn
  | error
  deriving DecidableEq, Repr

/-- One observable event of an orchestration call.  Each `log`-like constructor
corresponds to exactly one logger call site in handler.go; `closeCall i` records
the invocation of `closeable[i].Close()`. -/
inductive Event
  | warnReceipt (sig : Sig)
  | infoClosing
  | infoTrying (i : Nat)
  | closeCall (i : Nat)
  | errorClose (e : String)
  | warnTerminated
  deriving DecidableEq, Repr

/-- The logger invocation an event produces: the level and the exact message
string built by the corresponding call site in handler.go (`closeCall` is not a
logger call). -/
def Event.render : Event → Option (Level × String)
  | Event.warnReceipt s => some (Level.warn, "system call receipt -> " ++ sigName s)
  | Event.infoClosing => some (Level.info, "closing resources...")
  | Event.infoTrying i => some (Level.info, "trying to close resource " ++ toString i)
  | Event.closeCall _ => none
  | Event.errorClose e => some (Level.error, "error on close resource: " ++ e)
  | Event.warnTerminated => some (Level.warn, "system was terminated by system call")

/-- The `for i, c := range closeable` loop of `do` in handler.go, started at
index `i`: log "trying to close resource i", invoke `c.Close()`, and if the
error is non-nil log it at error level; then continue with the rest. -/
def closeLoop : Nat → List Closeable → List Event
  | _, [] => []
  | i, c :: rest =>
      Event.infoTrying i :: Event.closeCall i ::
        ((match c with
          | some e => [Event.errorClose e]
          | none => []) ++ closeLoop (i + 1) rest)

/-- The event trace of `do` in handler.go, given that the delivered signal is
`sig`: the watcher goroutine logs the receipt warning and posts to the
capacity-1 `terminate` channel, the main flow then logs "closing resources...",
runs the close loop from index 0, and logs the final warning. -/
def doTrace (sig : Sig) (closeable : List Closeable) : List Event :=
  Event.warnReceipt sig :: Event.infoClosing ::
    (closeLoop 0 closeable ++ [Event.warnTerminated])

/-- A Go buffered channel as observed after the orchestration call: its
remaining buffered values and whether `close` has been called on it. -/
structure Chan (α : Type) where
  buffer : List α
  closed : Bool
  deriving DecidableEq, Repr

/-- One receive from the channel, with `zero` the element type's zero value:
a buffered value is taken first; an empty closed channel yields the zero value
immediately; an empty open channel blocks (`none`). -/
def Chan.recv {α : Type} (zero : α) (c : Chan α) : Option (α × Chan α) :=
  match c.buffer with
  | v :: rest => some (v, { buffer := rest, closed := c.closed })
  | [] => if c.closed then some (zero, c) else none

/-- The value and channel state seen by the `(n+1)`-th receive (so `recvIter c 0`
is the first receive); `none` once any receive in the chain would block. -/
def Chan.recvIter (c : Chan Bool) : Nat → Option (Bool × Chan Bool)
  | 0 => Chan.recv false c
  | n + 1 => (Chan.recvIter c n).bind (fun p => Chan.recv false p.2)

/-- The observable outcome of one `Handle` call: its event trace, the returned
channel, and the process exit it performed (`none`: `Handle` never calls
`os.Exit`). -/
structure HandleResult where
  trace : List Event
  terminated : Chan Bool
  exitCode : Option Nat
  deriving DecidableEq, Repr

/-- `Handle` in handler.go: run `do`, then
`terminated := make(chan bool, 1); defer close(terminated); terminated <- true;
return terminated` — the returned channel holds the single buffered value `true`
and is closed by the deferred `close` before the caller can read it. -/
def Handle (sig : Sig) (closeable : List Closeable) : HandleResult :=
  { trace := doTrace sig closeable
    terminated := { buffer := [true], closed := true }
    exitCode := none }

/-- `HandleAndTerminate` in handler.go: run `do`, then `os.Exit(0)`.  Its
observable outcome is the event trace together with the exit status; the exit
status being the call's final result models that control never returns. -/
def HandleAndTerminate (sig : Sig) (closeable : List Closeable) : List Event × Nat :=
  (doTrace sig closeable, 0)

/-- The argument list of the `signal.Notify` call in `do` (handler.go line 36):
SIGQUIT appears twice. -/
def notifyArgs : List Sig := [Sig.SIGTERM, Sig.SIGQUIT, Sig.SIGQUIT, Sig.SIGINT]

/-- The same registration with the duplicate SIGQUIT removed. -/
def dedupArgs : List Sig := [Sig.SIGTERM, Sig.SIGQUIT, Sig.SIGINT]

/-- One run of the watcher plus orchestrator given the registration list `args`
and the signal `delivered` by the OS.  Go's `signal.Notify` sets a per-signal
handler bit for the channel, so delivery behaviour depends only on membership of
the delivered signal in `args`; a delivered registered signal is posted to the
capacity-1 `osSignals` channel and the goroutine consumes exactly one value,
producing one orchestration run. -/
def watcherRun (args : List Sig) (delivered : Sig) (closeable : List Closeable) :
    Option HandleResult :=
  if delivered ∈ args then some (Handle delivered closeable) else none

/-- The events of the close loop for one resource `c` at index `i`, written
directly: its "trying" line, its `Close()` invocation, and its error line when
the close fails. -/
def resourceSeg (i : Nat) (c : Closeable) : List Event :=
  Event.infoTrying i :: Event.closeCall i ::
    (match c with
     | some e => [Event.errorClose e]
     | none => [])

/-- The log lines of a `Handle` run: level and exact message of each logger
invocation, in order. -/
def renderedLog (r : HandleResult) : List (Level × String) :=
  r.trace.filterMap Event.render

/-- `true` exactly on the "closing resources..." event. -/
def Event.isClosing : Event → Bool
  | Event.infoClosing => true
  | _ => false

/-- `true` exactly on "trying to close resource i" events. -/
def Event.isTrying : Event → Bool
  | Event.infoTrying _ => true
  | _ => false

/-- `true` exactly on error-level "error on close resource" events. -/
def Event.isErrorLog : Event → Bool
  | Event.errorClose _ => true
  | _ => false

/-- `true` exactly on the signal-receipt warning. -/
def Event.isReceipt : Event → Bool
  | Event.warnReceipt _ => true
  | _ => false

/-- `true` exactly on the terminal warning. -/
def Event.isTerm : Event → Bool
  | Event.warnTerminated => true
  | _ => false

/-- The index of a `Close()` invocation event, `none` on log events. -/
def Event.closeIdx : Event → Option Nat
  | Event.closeCall i => some i
  | _ => none

/-! Structural lemmas about the close loop. -/

theorem closeLoop_eq_enum (rs : List Closeable) :
    ∀ j, closeLoop j rs
      = (List.enumFrom j rs).flatMap (fun p => resourceSeg p.1 p.2) := by
  induction rs with
  | nil => intro j; simp [closeLoop]
  | cons c rest ih =>
      intro j
      cases c <;>
        simp [closeLoop, List.enumFrom_cons, resourceSeg, ih (j + 1)]

theorem closeLoop_filter_isTrying (rs : List Closeable) :
    ∀ j, (closeLoop j rs).filter Event.isTrying
      = (List.range' j rs.length).map Event.infoTrying := by
  induction rs with
  | nil => intro j; simp [closeLoop]
  | cons c rest ih =>
      intro j
      cases c <;>
        simp [closeLoop, List.range'_succ, Event.isTrying, ih (j + 1),
          List.filter_cons, List.filter_append]

theorem closeLoop_filter_isErrorLog (rs : List Closeable) :
    ∀ j, (closeLoop j rs).filter Event.isErrorLog
      = (rs.filterMap id).map Event.errorClose := by
  induction rs with
  | nil => intro j; simp [closeLoop]
  | cons c rest ih =>
      intro j
      cases c <;>
        simp [closeLoop, Event.isErrorLog, ih (j + 1),
          List.filter_cons, List.filter_append, List.filterMap_cons]

theorem closeLoop_filterMap_closeIdx (rs : List Closeable) :
    ∀ j, (closeLoop j rs).filterMap Event.closeIdx = List.range' j rs.length := by
  induction rs with
  | nil => intro j; simp [closeLoop]
  | cons c rest ih =>
      intro j
      cases c <;>
        simp [closeLoop, Event.closeIdx, List.range'_succ, ih (j + 1),
          List.filterMap_cons, List.filterMap_append]

theorem closeLoop_countP_zero (p : Event → Bool)
    (hT : ∀ i, p (Event.infoTrying i) = false)
    (hC : ∀ i, p (Event.closeCall i) = false)
    (hE : ∀ e, p (Event.errorClose e) = false) (rs : List Closeable) :
    ∀ j, (closeLoop j rs).countP p = 0 := by
  induction rs with
  | nil => intro j; simp [closeLoop]
  | cons c rest ih =>
      intro j
      cases c <;>
        simp [closeLoop, List.countP_cons, List.countP_append, ih (j + 1), hT, hC, hE]

theorem closeLoop_render (rs : List Closeable) :
    ∀ j, (closeLoop j rs).filterMap Event.render
      = (List.enumFrom j rs).flatMap
          (fun p => (Level.info, "trying to close resource " ++ toString p.1)
            :: (match p.2 with
                | some e => [(Level.error, "error on close resource: " ++ e)]
                | none => [])) := by
  induction rs with
  | nil => intro j; simp [closeLoop]
  | cons c rest ih =>
      intro j
      cases c <;>
        simp [closeLoop, List.enumFrom_cons, Event.render, ih (j + 1),
          List.filterMap_cons, List.filterMap_append]

theorem recvIter_succ_false : ∀ n : Nat,
    Chan.recvIter { buffer := [true], closed := true } (n + 1)
      = some (false, { buffer := [], closed := true }) := by
  intro n
  induction n with
  | zero => rfl
  | succ k ih =>
      have h : Chan.recvIter { buffer := [true], closed := true } (k + 1 + 1)
          = (Chan.recvIter { buffer := [true], closed := true } (k + 1)).bind
              (fun p => Chan.recv false p.2) := rfl
      rw [h, ih]
      rfl

/-! Claim theorems. -/

/-- Claim C1: for every signal and every list of N resources of which the
failing ones carry `some` error, one `Handle` call produces exactly one
"closing resources..." message, exactly the N per-resource messages with
indices 0..N-1 in ascending order, exactly one error message per failing
resource (so exactly K error messages), exactly one terminal warning, and a
returned channel carrying exactly one value and then closed; for N = 0 the
loop contributes nothing but both bracketing messages still appear. -/
theorem handle_message_counts (sig : Sig) (rs : List Closeable) :
    (Handle sig rs).trace.countP Event.isClosing = 1 ∧
    (Handle sig rs).trace.filter Event.isTrying
      = (List.range rs.length).map Event.infoTrying ∧
    (Handle sig rs).trace.filter Event.isErrorLog
      = (rs.filterMap id).map Event.errorClose ∧
    (Handle sig rs).trace.countP Event.isTerm = 1 ∧
    (Handle sig rs).terminated = { buffer := [true], closed := true } ∧
    (Handle sig []).trace
      = [Event.warnReceipt sig, Event.infoClosing, Event.warnTerminated] := by
  refine ⟨?_, ?_, ?_, ?_, rfl, by simp [Handle, doTrace, closeLoop]⟩
  · simp [Handle, doTrace, List.countP_cons, List.countP_append, Event.isClosing,
      closeLoop_countP_zero Event.isClosing (fun _ => rfl) (fun _ => rfl) (fun _ => rfl) rs 0]
  · simp [Handle, doTrace, List.filter_cons, List.filter_append, Event.isTrying,
      closeLoop_filter_isTrying rs 0, List.range_eq_range']
  · simp [Handle, doTrace, List.filter_cons, List.filter_append, Event.isErrorLog,
      closeLoop_filter_isErrorLog rs 0]
  · simp [Handle, doTrace, List.countP_cons, List.countP_append, Event.isTerm,
      closeLoop_countP_zero Event.isTerm (fun _ => rfl) (fun _ => rfl) (fun _ => rfl) rs 0]

/-- Claim C2: a failing close is only logged at error level with its
description; it is never returned to the caller (the channel and exit outcome
are the same as for an all-success run, and `Handle` performs no exit), cleanup
reaches every resource (all N indices are closed, in order), and the
orchestration completes (the trace ends in the terminal warning) whatever the
failure pattern, including all resources failing. -/
theorem close_failures_absorbed (sig : Sig) (rs : List Closeable) :
    (Handle sig rs).trace.filterMap Event.closeIdx = List.range rs.length ∧
    (Handle sig rs).trace.filter Event.isErrorLog
      = (rs.filterMap id).map Event.errorClose ∧
    (Handle sig rs).trace.getLast? = some Event.warnTerminated ∧
    (Handle sig rs).terminated = (Handle sig []).terminated ∧
    (Handle sig rs).exitCode = none := by
  refine ⟨?_, ?_, ?_, rfl, rfl⟩
  · simp [Handle, doTrace, List.filterMap_cons, List.filterMap_append, Event.closeIdx,
      closeLoop_filterMap_closeIdx rs 0, List.range_eq_range']
  · simp [Handle, doTrace, List.filter_cons, List.filter_append, Event.isErrorLog,
      closeLoop_filter_isErrorLog rs 0]
  · have h : (Handle sig rs).trace
        = (Event.warnReceipt sig :: Event.infoClosing :: closeLoop 0 rs)
          ++ [Event.warnTerminated] := rfl
    rw [h, List.getLast?_concat]

/-- Claim C3 as stated is false: in the concrete scenario
signal = interrupt, resources = [success, failure "disk full"], the final
warning produced by the code reads "system was terminated by system call",
not "system was terminated by a system call" as the claim lists. -/
theorem scenario_log_counterexample :
    renderedLog (Handle Sig.SIGINT [none, some "disk full"])
      ≠ [(Level.warn, "system call receipt -> interrupt"),
         (Level.info, "closing resources..."),
         (Level.info, "trying to close resource 0"),
         (Level.info, "trying to close resource 1"),
         (Level.error, "error on close resource: disk full"),
         (Level.warn, "system was terminated by a system call")] := by
  decide

/-- Claim C3, amended ("system was terminated by system call" as the final
warning): the event order of one call is the receipt warning, the
"closing resources..." message, then for each resource in caller order its
trying message followed immediately by its `Close()` invocation followed by
its error message when the close fails, then the terminal warning; and the
concrete interrupt scenario produces exactly the listed log lines. -/
theorem handle_event_order (sig : Sig) (rs : List Closeable) :
    (Handle sig rs).trace
      = Event.warnReceipt sig :: Event.infoClosing ::
          ((List.enumFrom 0 rs).flatMap (fun p => resourceSeg p.1 p.2)
            ++ [Event.warnTerminated]) ∧
    renderedLog (Handle Sig.SIGINT [none, some "disk full"])
      = [(Level.warn, "system call receipt -> interrupt"),
         (Level.info, "closing resources..."),
         (Level.info, "trying to close resource 0"),
         (Level.info, "trying to close resource 1"),
         (Level.error, "error on close resource: disk full"),
         (Level.warn, "system was terminated by system call")] := by
  exact ⟨by simp [Handle, doTrace, closeLoop_eq_enum rs 0], by decide⟩

/-- Claim C4: `Handle` returns a channel that already holds the single value
`true` and is closed, so the first receive succeeds immediately without
blocking, and `Handle` performs no process exit. -/
theorem handle_channel_ready (sig : Sig) (rs : List Closeable) :
    (Handle sig rs).terminated = { buffer := [true], closed := true } ∧
    Chan.recv false (Handle sig rs).terminated
      = some (true, { buffer := [], closed := true }) ∧
    (Handle sig rs).exitCode = none :=
  ⟨rfl, rfl, rfl⟩

/-- Claim C5: `HandleAndTerminate` produces exactly the event trace of
`Handle` (same signal wait, same log lines, same `Close()` invocations in the
same order) and then ends the process with exit status 0; its result is that
terminal exit status rather than a returned value. -/
theorem handleAndTerminate_refines_handle (sig : Sig) (rs : List Closeable) :
    (HandleAndTerminate sig rs).1 = (Handle sig rs).trace ∧
    (HandleAndTerminate sig rs).2 = 0 :=
  ⟨rfl, rfl⟩

/-- Claim C6 as stated is false: at the concrete input signal = interrupt with
no resources, the final log line emitted is the warning
"system was terminated by system call", which differs from the text
"system was terminated by a system call" the claim requires. -/
theorem final_warning_text_counterexample :
    (renderedLog (Handle Sig.SIGINT [])).getLast?
      = some (Level.warn, "system was terminated by system call") ∧
    ("system was terminated by system call" : String)
      ≠ "system was terminated by a system call" := by
  exact ⟨by decide, by decide⟩

/-- Claim C6, amended (the terminal warning text is
"system was terminated by system call", without the article): every log line
of a call has exactly the listed shape — warning
"system call receipt -> signal-name", informational "closing resources...",
informational "trying to close resource i" per index i, error
"error on close resource: description" per failing close — and the terminal
warning is emitted exactly once. -/
theorem handle_log_shapes (sig : Sig) (rs : List Closeable) :
    renderedLog (Handle sig rs)
      = (Level.warn, "system call receipt -> " ++ sigName sig)
        :: (Level.info, "closing resources...")
        :: ((List.enumFrom 0 rs).flatMap
              (fun p => (Level.info, "trying to close resource " ++ toString p.1)
                :: (match p.2 with
                    | some e => [(Level.error, "error on close resource: " ++ e)]
                    | none => []))
            ++ [(Level.warn, "system was terminated by system call")]) ∧
    (Handle sig rs).trace.countP Event.isTerm = 1 := by
  constructor
  · simp [renderedLog, Handle, doTrace, List.filterMap_cons, List.filterMap_append,
      Event.render, closeLoop_render rs 0]
  · simp [Handle, doTrace, List.countP_cons, List.countP_append, Event.isTerm,
      closeLoop_countP_zero Event.isTerm (fun _ => rfl) (fun _ => rfl) (fun _ => rfl) rs 0]

/-- Claim C7: registering SIGQUIT twice is harmless — the run produced from
the actual registration list (with the duplicate) is identical to the run
produced from the deduplicated list for every delivered signal and every
resource list, and a delivered quit signal makes the watcher fire exactly
once: the trace holds exactly one receipt warning. -/
theorem duplicate_quit_registration_harmless :
    (∀ (d : Sig) (rs : List Closeable),
      watcherRun notifyArgs d rs = watcherRun dedupArgs d rs) ∧
    (∀ rs : List Closeable,
      (watcherRun notifyArgs Sig.SIGQUIT rs).map
        (fun r => r.trace.countP Event.isReceipt) = some 1) := by
  constructor
  · intro d rs
    cases d <;> rfl
  · intro rs
    simp [watcherRun, notifyArgs, Handle, doTrace, List.countP_cons, List.countP_append,
      Event.isReceipt,
      closeLoop_countP_zero Event.isReceipt (fun _ => rfl) (fun _ => rfl) (fun _ => rfl) rs 0]

/-- Claim C8 as stated is false: on the channel returned by
`Handle interrupt []`, the second receive yields `false` (the element zero
value of the closed channel), not the value `true` the first receive yielded,
so the n-th receive does not repeat the first value. -/
theorem repeat_receive_counterexample :
    (Chan.recvIter (Handle Sig.SIGINT []).terminated 1).map Prod.fst
      ≠ (Chan.recvIter (Handle Sig.SIGINT []).terminated 0).map Prod.fst := by
  decide

/-- Claim C8, amended: every receive on the returned channel completes without
blocking; the first receive yields `true`, and each subsequent receive yields
the element type's zero value `false` because the channel is drained and
closed. -/
theorem repeated_receive_behaviour (sig : Sig) (rs : List Closeable) (n : Nat) :
    Chan.recvIter (Handle sig rs).terminated n ≠ none ∧
    (Chan.recvIter (Handle sig rs).terminated 0).map Prod.fst = some true ∧
    (Chan.recvIter (Handle sig rs).terminated (n + 1)).map Prod.fst = some false := by
  have hc : (Handle sig rs).terminated = { buffer := [true], closed := true } := rfl
  refine ⟨?_, rfl, ?_⟩
  · cases n with
    | zero => simp [hc, Chan.recvIter, Chan.recv]
    | succ k => rw [hc, recvIter_succ_false]; simp
  · rw [hc, recvIter_succ_false]; rfl

/-- Claim C9: for any two recognized termination signals and the same resource
list, the two `Handle` runs have identical `Close()` invocation sequences,
identical traces and log lines apart from the first event (the receipt
warning, which names the delivered signal), and identical channel and exit
results: the signal identity influences only the receipt warning's text. -/
theorem signal_identity_noninterference (s₁ s₂ : Sig) (rs : List Closeable) :
    (Handle s₁ rs).trace.filterMap Event.closeIdx
      = (Handle s₂ rs).trace.filterMap Event.closeIdx ∧
    (Handle s₁ rs).trace.tail = (Handle s₂ rs).trace.tail ∧
    (Handle s₁ rs).trace.head? = some (Event.warnReceipt s₁) ∧
    (renderedLog (Handle s₁ rs)).head?
      = some (Level.warn, "system call receipt -> " ++ sigName s₁) ∧
    (renderedLog (Handle s₁ rs)).tail = (renderedLog (Handle s₂ rs)).tail ∧
    (Handle s₁ rs).terminated = (Handle s₂ rs).terminated ∧
    (Handle s₁ rs).exitCode = (Handle s₂ rs).exitCode :=
  ⟨rfl, rfl, rfl, rfl, rfl, rfl, rfl⟩

/-- Claim C10: the single value delivered on the returned channel is the
constant `true`, independent of the resources and their failures; once it is
consumed, every further receive yields the zero value `false` because the
channel is closed. -/
theorem notification_value_constant (sig : Sig) (rs : List Closeable) :
    (Handle sig rs).terminated.buffer = [true] ∧
    (Handle sig rs).terminated.closed = true ∧
    Chan.recvIter (Handle sig rs).terminated 0
      = some (true, { buffer := [], closed := true }) ∧
    (∀ n : Nat, Chan.recvIter (Handle sig rs).terminated (n + 1)
      = some (false, { buffer := [], closed := true })) := by
  refine ⟨rfl, rfl, rfl, ?_⟩
  intro n
  have hc : (Handle sig rs).terminated = { buffer := [true], closed := true } := rfl
  rw [hc, recvIter_succ_false]

end GracefulShutdown
